import Mathlib

/-!
# LeviProof web tier — shallow embedding

Embedding of the NFPInfluencers ("LeviProof") web tier:

* the shared relational store (`targets`, `stories` tables from
  `src/supabase/migrations/20251116235429_create_leviproof_schema.sql`),
* the username normalization utility (from `lib/supabase.ts`, which is not
  present under `src/`; it is modelled from the spec),
* the target registration handler `POST /api/targets`
  (`src/app/api/targets/route.ts`),
* the dossier retrieval handler `GET /api/dossier/[dossierId]`
  (`src/unnamed/part_005`).

Modelling conventions:

* `uuid` columns are modelled as `Nat`; `timestamptz` columns as `Nat`
  (only ordering and equality of timestamps matter to the handlers).
* Each Supabase round trip sees a snapshot of the store.  A handler that
  makes two round trips (lookup then insert) receives two snapshots, so a
  concurrent writer between the two trips is expressible.  Storage
  failures of individual queries are injected as boolean fault flags.
* The TypeScript expression `story.media_type as 'image' | 'video'` is a
  compile-time type assertion with no runtime effect, so the embedding
  passes `media_type` through unchanged.
-/

/-- A row of the `targets` table:
`targets(id uuid PK, username text UNIQUE, dossier_id text UNIQUE,
created_at timestamptz DEFAULT now(), last_updated_at timestamptz DEFAULT now())`. -/
structure TargetRow where
  id : Nat
  username : String
  dossier_id : String
  created_at : Nat
  last_updated_at : Nat
  deriving DecidableEq, Repr

/-- A row of the `stories` table:
`stories(id uuid PK, target_id uuid FK, story_id text, timestamp timestamptz,
media_type text DEFAULT 'video', media_url text NULL, summary text,
full_analysis text, created_at timestamptz, UNIQUE(target_id, story_id))`.
Note the schema places no CHECK constraint on `media_type`: any text value
can be stored there. -/
structure StoryRow where
  id : Nat
  target_id : Nat
  story_id : String
  timestamp : Nat
  media_type : String
  media_url : Option String
  summary : String
  full_analysis : String
  created_at : Nat
  deriving DecidableEq, Repr

/-- A snapshot of the shared store. -/
structure DB where
  targets : List TargetRow
  stories : List StoryRow
  deriving DecidableEq, Repr

/-- Remove leading and trailing whitespace characters. -/
def trimChars (l : List Char) : List Char :=
  ((l.dropWhile Char.isWhitespace).reverse.dropWhile Char.isWhitespace).reverse

/-- Strip one leading `@` character, if present. -/
def stripAt : List Char → List Char
  | c :: rest => if c = '@' then rest else c :: rest
  | [] => []

/-- Modelled from the spec: `normalizeUsername(raw: string) -> string | invalid`
from `lib/supabase.ts`, which is imported by `src/app/api/targets/route.ts`
but whose source is not in the repository snapshot.  Per the spec it trims
whitespace, strips a single leading `@`, and lowercases; "invalid" is
signalled by the empty result (the route handler checks `if (!username)`,
i.e. treats the empty string as invalid).  Implemented over the string's
character list. -/
def normalizeUsername (raw : String) : String :=
  ⟨(stripAt (trimChars raw.data)).map Char.toLower⟩

/-- Body of a `POST /api/targets` request, as seen through
`await request.json()` and the field accesses the handler performs.
`malformed` stands for a body on which `request.json()` throws;
`fieldAbsent` covers a missing `username` field (and JavaScript-falsy
non-string values such as `null`, `0`, `false`, which fail the
`!body.username` check the same way); `fieldNonString` covers a present,
truthy, non-string value (it fails `typeof body.username !== 'string'`);
`fieldStr s` is a string value. -/
inductive ReqBody where
  | malformed
  | fieldAbsent
  | fieldNonString
  | fieldStr (s : String)
  deriving DecidableEq, Repr

/-- Outcome of the `POST /api/targets` handler: `ok d` is the 200 response
`{ dossierId: d }`; `err status msg` is `NextResponse.json({error: msg}, {status})`. -/
inductive PostResult where
  | ok (dossierId : String)
  | err (status : Nat) (msg : String)
  deriving DecidableEq, Repr

/-- The `POST` handler of `src/app/api/targets/route.ts`.

`dbL` is the store snapshot seen by the lookup round trip and `dbI` the
snapshot current when the insert round trip executes (they coincide when no
concurrent writer interferes).  `freshId` is the value produced by
`generateDossierId()`, `freshRowId` the `id` the store generates for the new
row, `tReq` the handler-clock reading `new Date().toISOString()`, `tDb` the
store-clock reading `now()` used for the `created_at` column default (the
handler's insert supplies `username`, `dossier_id` and `last_updated_at`
only).  `insertFault` injects a storage failure of the insert other than a
uniqueness violation; uniqueness violations themselves arise from `dbI`'s
contents.  Returns the HTTP outcome and the store state after the request. -/
def targetsPOST (dbL dbI : DB) (body : ReqBody) (freshId : String)
    (freshRowId tReq tDb : Nat) (insertFault : Bool) : PostResult × DB :=
  match body with
  | .malformed => (.err 500 "Internal server error", dbI)
  | .fieldAbsent => (.err 400 "Username is required", dbI)
  | .fieldNonString => (.err 400 "Username is required", dbI)
  | .fieldStr s =>
    if s = "" then (.err 400 "Username is required", dbI)
    else
      let username := normalizeUsername s
      if username = "" then (.err 400 "Invalid username", dbI)
      else
        match dbL.targets.find? (fun r => r.username = username) with
        | some existing => (.ok existing.dossier_id, dbI)
        | none =>
          if insertFault
              ∨ dbI.targets.any (fun r => r.username = username)
              ∨ dbI.targets.any (fun r => r.dossier_id = freshId) then
            (.err 500 "Failed to create target", dbI)
          else
            let row : TargetRow :=
              { id := freshRowId, username := username, dossier_id := freshId,
                created_at := tDb, last_updated_at := tReq }
            (.ok freshId, { dbI with targets := dbI.targets ++ [row] })

/-- One story of the `DossierResponse` document (`src/unnamed/part_004`). -/
structure StoryOut where
  id : Nat
  timestamp : Nat
  mediaType : String
  mediaUrl : Option String
  summary : String
  fullAnalysis : String
  deriving DecidableEq, Repr

/-- The `DossierResponse` document (`src/unnamed/part_004`). -/
structure DossierResponse where
  dossierId : String
  username : String
  createdAt : Nat
  lastUpdatedAt : Nat
  storyCount : Nat
  stories : List StoryOut
  deriving DecidableEq, Repr

/-- Outcome of the `GET /api/dossier/[dossierId]` handler. -/
inductive GetResult where
  | success (resp : DossierResponse)
  | failure (status : Nat) (msg : String)
  deriving DecidableEq, Repr

/-- The story-shaping step of the GET handler: note `media_type` is passed
through unchanged (`as 'image' | 'video'` has no runtime effect). -/
def storyOut (s : StoryRow) : StoryOut :=
  { id := s.id, timestamp := s.timestamp, mediaType := s.media_type,
    mediaUrl := s.media_url, summary := s.summary,
    fullAnalysis := s.full_analysis }

/-- The ordering used by `.order('timestamp', { ascending: false })`:
`a` may precede `b` exactly when `a.timestamp ≥ b.timestamp`. -/
def tsDesc (a b : StoryRow) : Prop := b.timestamp ≤ a.timestamp

instance : DecidableRel tsDesc := fun a b =>
  inferInstanceAs (Decidable (b.timestamp ≤ a.timestamp))

instance : IsTotal StoryRow tsDesc := ⟨fun a b => Nat.le_total b.timestamp a.timestamp⟩

instance : IsTrans StoryRow tsDesc := ⟨fun _ _ _ h h' => Nat.le_trans h' h⟩

/-- The store's evaluation of
`from('stories').select('*').eq('target_id', tid).order('timestamp', {ascending: false})`. -/
def storiesQuery (db : DB) (tid : Nat) : List StoryRow :=
  List.insertionSort tsDesc (db.stories.filter (fun s => s.target_id = tid))

/-- The `GET` handler of `src/unnamed/part_005` (route
`/api/dossier/[dossierId]`).  `targetFault` injects a storage failure of the
target lookup, `storiesFault` one of the stories fetch.  The handler's test
`if (targetError || !target)` makes a lookup failure and a missing row land
in the same branch. -/
def dossierGET (db : DB) (targetFault storiesFault : Bool)
    (dossierId : String) : GetResult :=
  if targetFault then .failure 404 "Dossier not found"
  else
    match db.targets.find? (fun r => r.dossier_id = dossierId) with
    | none => .failure 404 "Dossier not found"
    | some target =>
      if storiesFault then .failure 500 "Failed to fetch stories"
      else
        let rows := storiesQuery db target.id
        .success
          { dossierId := target.dossier_id
            username := target.username
            createdAt := target.created_at
            lastUpdatedAt := target.last_updated_at
            storyCount := rows.length
            stories := rows.map storyOut }

/-- Number of `targets` rows carrying a given canonical username. -/
def countUsername (db : DB) (u : String) : Nat :=
  db.targets.countP (fun r => r.username = u)

/-- The `mediaType` fields of the stories of a successful dossier response
(empty for an error outcome). -/
def respMediaTypes : GetResult → List String
  | .success r => r.stories.map (fun s => s.mediaType)
  | .failure _ _ => []

/-- Sample store used by the concrete instantiations below: target `alice`
(`dossier_id = "D1"`) has two stories, stored out of timestamp order and one
of them carrying `media_type = "gif"` (the schema has no CHECK constraint on
that column); target `bob` (`dossier_id = "D2"`) has no stories. -/
def dbSample : DB :=
  { targets :=
      [ { id := 1, username := "alice", dossier_id := "D1",
          created_at := 3, last_updated_at := 4 },
        { id := 2, username := "bob", dossier_id := "D2",
          created_at := 5, last_updated_at := 6 } ],
    stories :=
      [ { id := 10, target_id := 1, story_id := "s1", timestamp := 5,
          media_type := "gif", media_url := none, summary := "a",
          full_analysis := "b", created_at := 7 },
        { id := 11, target_id := 1, story_id := "s2", timestamp := 9,
          media_type := "image", media_url := some "u", summary := "c",
          full_analysis := "d", created_at := 8 } ] }

/-- The response document `GET /api/dossier/D1` produces on `dbSample`. -/
def respD1 : DossierResponse :=
  { dossierId := "D1", username := "alice", createdAt := 3, lastUpdatedAt := 4,
    storyCount := 2,
    stories :=
      [ { id := 11, timestamp := 9, mediaType := "image", mediaUrl := some "u",
          summary := "c", fullAnalysis := "d" },
        { id := 10, timestamp := 5, mediaType := "gif", mediaUrl := none,
          summary := "a", fullAnalysis := "b" } ] }

/-! ## Shared inversion and list helper lemmas -/

/-- A dossier retrieval succeeds exactly when neither fault flag is set and
the target lookup resolves, in which case the response is the shaped
document. -/
theorem dossierGET_success_iff (db : DB) (tf sf : Bool) (id : String)
    (resp : DossierResponse) :
    dossierGET db tf sf id = .success resp ↔
      tf = false ∧ sf = false ∧
      ∃ t, db.targets.find? (fun r => r.dossier_id = id) = some t ∧
        resp = { dossierId := t.dossier_id, username := t.username,
                 createdAt := t.created_at, lastUpdatedAt := t.last_updated_at,
                 storyCount := (storiesQuery db t.id).length,
                 stories := (storiesQuery db t.id).map storyOut } := by
  unfold dossierGET
  cases tf <;> cases sf <;>
    cases hf : db.targets.find? (fun r => r.dossier_id = id) <;>
      simp [hf, eq_comm]

/-- If `find?` misses the left part of an append, it continues on the right. -/
theorem find?_append_of_none {α : Type} {p : α → Bool} {l₁ l₂ : List α}
    (h : l₁.find? p = none) : (l₁ ++ l₂).find? p = l₂.find? p := by
  rw [List.find?_append, h, Option.none_or]

/-! ## Claims -/

/-- C5: `normalizeUsername` trims surrounding whitespace, strips a single
leading `@`, and lowercases its input, and signals "invalid" (the empty
string, which the handler's `if (!username)` check treats as invalid)
exactly when that result is empty: the result is invalid precisely when
nothing remains after trimming and stripping, i.e. when the trimmed input
is empty or a lone `@`; in particular `normalizeUsername " @Alice "` equals
`"alice"` and `normalizeUsername "   "` is invalid. -/
theorem C5_normalizeUsername_spec :
    normalizeUsername " @Alice " = "alice" ∧
    normalizeUsername "   " = "" ∧
    normalizeUsername "@" = "" ∧
    normalizeUsername "@Bob" = "bob" ∧
    normalizeUsername "CARLOS" = "carlos" ∧
    ∀ raw : String,
      (normalizeUsername raw = "" ↔
        (trimChars raw.data = [] ∨ trimChars raw.data = ['@'])) := by
  refine ⟨by decide, by decide, by decide, by decide, by decide, fun raw => ?_⟩
  unfold normalizeUsername
  cases h : trimChars raw.data with
  | nil => simp [stripAt, String.ext_iff]
  | cons c rest =>
    by_cases hc : c = '@'
    · subst hc
      simp [stripAt, String.ext_iff]
    · simp [stripAt, hc, String.ext_iff]

/-- C10: a request whose `username` field is the empty string fails the
JavaScript-falsy check `!body.username` and is rejected with the same 400
"Username is required" outcome as an absent field — normalization is never
reached (its failure would produce the distinct "Invalid username"
message) — while a body on which `request.json()` throws lands in the
catch-all and yields the 500 "Internal server error" outcome, not a 400. -/
theorem C10_validation_gates (dbL dbI : DB) (freshId : String)
    (freshRowId tReq tDb : Nat) (insertFault : Bool) :
    (targetsPOST dbL dbI (.fieldStr "") freshId freshRowId tReq tDb insertFault).1
      = .err 400 "Username is required" ∧
    (targetsPOST dbL dbI .fieldAbsent freshId freshRowId tReq tDb insertFault).1
      = .err 400 "Username is required" ∧
    (targetsPOST dbL dbI .malformed freshId freshRowId tReq tDb insertFault).1
      = .err 500 "Internal server error" :=
  ⟨rfl, rfl, rfl⟩

/-- C3 counterexample: the handler's test `if (targetError || !target)` maps
a storage failure during the target lookup to the 404 "Dossier not found"
outcome, not to a 500 server error, refuting the claim at the concrete
input `targetFault = true` on the empty store. -/
theorem C3_counterexample :
    dossierGET ⟨[], []⟩ true false "demoXY9zP1q8"
      = .failure 404 "Dossier not found" ∧
    dossierGET ⟨[], []⟩ true false "demoXY9zP1q8"
      ≠ .failure 500 "Failed to fetch stories" :=
  ⟨rfl, by decide⟩

/-- C3 amended: the 404 "not found" outcome is returned exactly when the
target lookup fails as a storage operation or no Target row has the given
dossierId; a 500 server error is returned exactly when the target resolves
and the stories fetch fails. -/
theorem C3_amended_outcome_map (db : DB) (tf sf : Bool) (id : String) :
    (dossierGET db tf sf id = .failure 404 "Dossier not found" ↔
      tf = true ∨ db.targets.find? (fun r => r.dossier_id = id) = none) ∧
    (dossierGET db tf sf id = .failure 500 "Failed to fetch stories" ↔
      tf = false ∧ sf = true ∧
        (db.targets.find? (fun r => r.dossier_id = id)).isSome = true) := by
  unfold dossierGET
  cases tf <;> cases sf <;>
    cases hf : db.targets.find? (fun r => r.dossier_id = id) <;>
      simp [hf]

/-- C6 counterexample: on `dbSample` the dossier `D1` is retrieved
successfully, yet the response carries a story whose `mediaType` is
`"gif"`, outside the closed set — the TypeScript
`as 'image' | 'video'` cast performs no runtime validation and the schema
places no CHECK constraint on `media_type`. -/
theorem C6_counterexample :
    respMediaTypes (dossierGET dbSample false false "D1") = ["image", "gif"] ∧
    ¬ ∀ m ∈ respMediaTypes (dossierGET dbSample false false "D1"),
        m = "image" ∨ m = "video" :=
  ⟨by decide, by decide⟩

/-- C6 amended: the GET handler passes each story's stored `media_type`
through unchanged into the response's `mediaType` (no runtime validation
occurs): every `mediaType` of a successful response is the `media_type` of
some stored story row. -/
theorem C6_amended_mediaType_passthrough (db : DB) (tf sf : Bool) (id : String)
    (resp : DossierResponse) (h : dossierGET db tf sf id = .success resp) :
    ∀ s ∈ resp.stories, ∃ row ∈ db.stories, s.mediaType = row.media_type := by
  rcases (dossierGET_success_iff db tf sf id resp).mp h with ⟨-, -, t, hf, hresp⟩
  subst hresp
  intro s hs
  simp only [List.mem_map] at hs
  rcases hs with ⟨row, hrow, rfl⟩
  have hmem : row ∈ db.stories.filter (fun st => st.target_id = t.id) := by
    have hperm := List.perm_insertionSort tsDesc
      (db.stories.filter (fun st => st.target_id = t.id))
    exact hperm.mem_iff.mp hrow
  exact ⟨row, (List.mem_filter.mp hmem).1, rfl⟩

/-- C6 amended, witnessed at `dbSample`: the first story of the `D1`
response carries the stored `media_type` `"image"`. -/
theorem C6_amended_witness :
    ∃ row ∈ dbSample.stories,
      (StoryOut.mk 11 9 "image" (some "u") "c" "d").mediaType
        = row.media_type :=
  C6_amended_mediaType_passthrough dbSample false false "D1" respD1 (by decide)
    (StoryOut.mk 11 9 "image" (some "u") "c" "d") (by decide)

/-- C2 counterexample: with an empty store at lookup time and the winner's
row `(alice, "W111")` present at insert time, the insert hits the
uniqueness constraint and the handler returns the 500
"Failed to create target" error instead of re-fetching the winner's row
and returning `"W111"` as a success. -/
theorem C2_counterexample :
    (targetsPOST ⟨[], []⟩ ⟨[⟨1, "alice", "W111", 0, 0⟩], []⟩
        (.fieldStr "alice") "D9" 2 5 7 false).1
      = .err 500 "Failed to create target" ∧
    (targetsPOST ⟨[], []⟩ ⟨[⟨1, "alice", "W111", 0, 0⟩], []⟩
        (.fieldStr "alice") "D9" 2 5 7 false).1
      ≠ .ok "W111" :=
  ⟨by decide, by decide⟩

/-- C2 amended: when the lookup misses but a row with the normalized
username is present at insert time (the loser of a concurrent-registration
race), the handler treats the uniqueness violation like any other insert
failure: it returns the 500 "Failed to create target" error and performs
no re-fetch of the winner's row. -/
theorem C2_amended_race_returns_500 (dbL dbI : DB) (raw freshId : String)
    (freshRowId tReq tDb : Nat)
    (hvalid : normalizeUsername raw ≠ "")
    (hmiss : dbL.targets.find? (fun r => r.username = normalizeUsername raw)
      = none)
    (hrace : dbI.targets.any (fun r => r.username = normalizeUsername raw)
      = true) :
    targetsPOST dbL dbI (.fieldStr raw) freshId freshRowId tReq tDb false
      = (.err 500 "Failed to create target", dbI) := by
  have hraw : raw ≠ "" := by
    intro h
    subst h
    exact hvalid (by decide)
  simp [targetsPOST, hraw, hvalid, hmiss, hrace]

/-- C2 amended, witnessed at the concrete race of `C2_counterexample`. -/
theorem C2_amended_witness :
    targetsPOST ⟨[], []⟩ ⟨[⟨1, "alice", "W111", 0, 0⟩], []⟩
        (.fieldStr "alice") "D9" 2 5 7 false
      = (.err 500 "Failed to create target",
         ⟨[⟨1, "alice", "W111", 0, 0⟩], []⟩) :=
  C2_amended_race_returns_500 ⟨[], []⟩ ⟨[⟨1, "alice", "W111", 0, 0⟩], []⟩
    "alice" "D9" 2 5 7 (by decide) (by decide) (by decide)

/-- C7 counterexample: registering `alice` on an empty store with the
handler clock reading 5 and the store clock reading 7 succeeds with the new
dossierId, yet the inserted row has `created_at = 7 ≠ 5 = last_updated_at`:
the handler supplies only `last_updated_at`, while `created_at` is filled
by the store's independent `DEFAULT now()`. -/
theorem C7_counterexample :
    (targetsPOST ⟨[], []⟩ ⟨[], []⟩ (.fieldStr "alice") "D1" 1 5 7 false).1
      = .ok "D1" ∧
    ((targetsPOST ⟨[], []⟩ ⟨[], []⟩ (.fieldStr "alice") "D1" 1 5 7
        false).2.targets.all
      (fun r => r.created_at == r.last_updated_at)) = false :=
  ⟨by decide, by decide⟩

/-- C7 amended: when the lookup misses and the insert succeeds, the handler
returns the newly generated dossierId and the store gains exactly one new
Target row whose `last_updated_at` is the handler clock's reading at
request time and whose `created_at` is the store clock's reading at insert
time; the two clock readings are independent, so the fields are not forced
equal. -/
theorem C7_amended_insert_row (dbL dbI : DB) (raw freshId : String)
    (freshRowId tReq tDb : Nat)
    (hvalid : normalizeUsername raw ≠ "")
    (hmiss : dbL.targets.find? (fun r => r.username = normalizeUsername raw)
      = none)
    (hnou : dbI.targets.any (fun r => r.username = normalizeUsername raw)
      = false)
    (hnod : dbI.targets.any (fun r => r.dossier_id = freshId) = false) :
    targetsPOST dbL dbI (.fieldStr raw) freshId freshRowId tReq tDb false
      = (.ok freshId,
         { dbI with targets := dbI.targets ++
            [{ id := freshRowId, username := normalizeUsername raw,
               dossier_id := freshId, created_at := tDb,
               last_updated_at := tReq }] }) := by
  have hraw : raw ≠ "" := by
    intro h
    subst h
    exact hvalid (by decide)
  simp [targetsPOST, hraw, hvalid, hmiss, hnou, hnod]

/-- C7 amended, witnessed: registering `" @Alice "` on the empty store with
handler clock 5 and store clock 7 yields `dossierId = "D1"` and the row
`(9, alice, D1, created_at 7, last_updated_at 5)`. -/
theorem C7_amended_witness :
    targetsPOST ⟨[], []⟩ ⟨[], []⟩ (.fieldStr " @Alice ") "D1" 9 5 7 false
      = (.ok "D1", ⟨[⟨9, "alice", "D1", 7, 5⟩], []⟩) := by
  have h := C7_amended_insert_row ⟨[], []⟩ ⟨[], []⟩ " @Alice " "D1" 9 5 7
    (by decide) (by decide) (by decide) (by decide)
  simpa using h

/-- C8: a Target with zero Stories is retrieved successfully, not as an
error: when the lookup resolves to a target no story row references, the
response has `storyCount = 0` and an empty stories list. -/
theorem C8_zero_stories_ok (db : DB) (id : String) (t : TargetRow)
    (ht : db.targets.find? (fun r => r.dossier_id = id) = some t)
    (hs : db.stories.filter (fun s => s.target_id = t.id) = []) :
    dossierGET db false false id =
      .success { dossierId := t.dossier_id, username := t.username,
                 createdAt := t.created_at, lastUpdatedAt := t.last_updated_at,
                 storyCount := 0, stories := [] } := by
  have hq : storiesQuery db t.id = [] := by
    rw [storiesQuery, hs]
    rfl
  rw [dossierGET_success_iff]
  exact ⟨rfl, rfl, t, ht, by simp [hq]⟩

/-- C8 witnessed at `dbSample`: target `bob` has no stories and its dossier
`D2` is returned successfully with `storyCount = 0`. -/
theorem C8_witness :
    dossierGET dbSample false false "D2" =
      .success { dossierId := "D2", username := "bob", createdAt := 5,
                 lastUpdatedAt := 6, storyCount := 0, stories := [] } :=
  C8_zero_stories_ok dbSample "D2" ⟨2, "bob", "D2", 5, 6⟩ (by decide) (by decide)

/-- C9: every successful dossier response has `storyCount` equal to the
length of its `stories` array (both stem from the same fetched row list). -/
theorem C9_storyCount_eq_length (db : DB) (tf sf : Bool) (id : String)
    (resp : DossierResponse) (h : dossierGET db tf sf id = .success resp) :
    resp.storyCount = resp.stories.length := by
  rcases (dossierGET_success_iff db tf sf id resp).mp h with ⟨-, -, t, -, hresp⟩
  subst hresp
  simp

/-- C9 witnessed on `dbSample`: the `D1` response has `storyCount = 2` and
a two-element stories array. -/
theorem C9_witness : respD1.storyCount = respD1.stories.length :=
  C9_storyCount_eq_length dbSample false false "D1" respD1 (by decide)

/-- C4: for every successful dossier retrieval the response's stories are
exactly the stored Stories whose `target_id` is the resolved Target's id
(a permutation of their shaped forms), ordered by `timestamp` descending —
most recent first, every later entry's timestamp no greater than every
earlier one's. -/
theorem C4_stories_complete_sorted (db : DB) (tf sf : Bool) (id : String)
    (resp : DossierResponse) (h : dossierGET db tf sf id = .success resp) :
    ∃ t, db.targets.find? (fun r => r.dossier_id = id) = some t ∧
      resp.stories.Perm
        ((db.stories.filter (fun s => s.target_id = t.id)).map storyOut) ∧
      resp.stories.Pairwise (fun a b => b.timestamp ≤ a.timestamp) := by
  rcases (dossierGET_success_iff db tf sf id resp).mp h with ⟨-, -, t, hf, hresp⟩
  subst hresp
  refine ⟨t, hf, ?_, ?_⟩
  · exact (List.perm_insertionSort tsDesc _).map storyOut
  · have hsorted := List.sorted_insertionSort tsDesc
      (db.stories.filter (fun s => s.target_id = t.id))
    exact List.Pairwise.map storyOut (fun a b hab => hab) hsorted

/-- C4 witnessed on `dbSample`: the `D1` response lists the two stories of
target 1, most recent (timestamp 9) first. -/
theorem C4_witness :
    ∃ t, dbSample.targets.find? (fun r => r.dossier_id = "D1") = some t ∧
      respD1.stories.Perm
        ((dbSample.stories.filter (fun s => s.target_id = t.id)).map storyOut) ∧
      respD1.stories.Pairwise (fun a b => b.timestamp ≤ a.timestamp) :=
  C4_stories_complete_sorted dbSample false false "D1" respD1 (by decide)

/-- C1: target registration is idempotent: for every raw username that
normalizes to a valid (non-empty) canonical username, two sequential
`POST /targets` calls with it return the same dossierId both times, and
exactly one Target row with that canonical username exists afterward —
assuming the store starts with at most one such row (its uniqueness
invariant), the insert does not fault, and the freshly generated dossierId
does not collide. -/
theorem C1_registration_idempotent (s0 : DB) (raw f1 f2 : String)
    (r1 r2 t1 t1' t2 t2' : Nat)
    (hvalid : normalizeUsername raw ≠ "")
    (hinv : countUsername s0 (normalizeUsername raw) ≤ 1)
    (hfresh : s0.targets.any (fun r => r.dossier_id = f1) = false) :
    ∃ d,
      (targetsPOST s0 s0 (.fieldStr raw) f1 r1 t1 t1' false).1 = .ok d ∧
      (targetsPOST (targetsPOST s0 s0 (.fieldStr raw) f1 r1 t1 t1' false).2
        (targetsPOST s0 s0 (.fieldStr raw) f1 r1 t1 t1' false).2
        (.fieldStr raw) f2 r2 t2 t2' false).1 = .ok d ∧
      countUsername
        (targetsPOST (targetsPOST s0 s0 (.fieldStr raw) f1 r1 t1 t1' false).2
          (targetsPOST s0 s0 (.fieldStr raw) f1 r1 t1 t1' false).2
          (.fieldStr raw) f2 r2 t2 t2' false).2
        (normalizeUsername raw) = 1 := by
  have hraw : raw ≠ "" := by
    intro h
    subst h
    exact hvalid (by decide)
  set u := normalizeUsername raw with hu
  cases hfind : s0.targets.find? (fun r => r.username = u) with
  | some ex =>
    have e1 : targetsPOST s0 s0 (.fieldStr raw) f1 r1 t1 t1' false
        = (.ok ex.dossier_id, s0) := by
      simp [targetsPOST, hraw, ← hu, hvalid, hfind]
    have e2 : targetsPOST s0 s0 (.fieldStr raw) f2 r2 t2 t2' false
        = (.ok ex.dossier_id, s0) := by
      simp [targetsPOST, hraw, ← hu, hvalid, hfind]
    have hpex : ex.username = u := by
      have h := List.find?_some hfind
      simpa using h
    have hmem := List.mem_of_find?_eq_some hfind
    have hpos : 0 < countUsername s0 u :=
      List.countP_pos_iff.mpr ⟨ex, hmem, by simp [hpex]⟩
    refine ⟨ex.dossier_id, ?_, ?_, ?_⟩
    · rw [e1]
    · rw [e1]
      rw [e2]
    · rw [e1]
      rw [e2]
      exact Nat.le_antisymm hinv hpos
  | none =>
    have hnou : s0.targets.any (fun r => r.username = u) = false := by
      rw [List.any_eq_false]
      intro x hx
      exact List.find?_eq_none.mp hfind x hx
    have e1 : targetsPOST s0 s0 (.fieldStr raw) f1 r1 t1 t1' false
        = (.ok f1,
           { s0 with targets := s0.targets ++
              [({ id := r1, username := u, dossier_id := f1,
                  created_at := t1', last_updated_at := t1 } : TargetRow)] }) := by
      simp [targetsPOST, hraw, ← hu, hvalid, hfind, hnou, hfresh]
    have e2 : targetsPOST
        { s0 with targets := s0.targets ++
            [({ id := r1, username := u, dossier_id := f1,
                created_at := t1', last_updated_at := t1 } : TargetRow)] }
        { s0 with targets := s0.targets ++
            [({ id := r1, username := u, dossier_id := f1,
                created_at := t1', last_updated_at := t1 } : TargetRow)] }
        (.fieldStr raw) f2 r2 t2 t2' false
        = (.ok f1,
           { s0 with targets := s0.targets ++
              [({ id := r1, username := u, dossier_id := f1,
                  created_at := t1', last_updated_at := t1 } : TargetRow)] }) := by
      simp [targetsPOST, hraw, ← hu, hvalid, hfind]
    have hcount0 :
        List.countP (fun r => decide (r.username = u)) s0.targets = 0 := by
      rw [List.countP_eq_zero]
      intro x hx
      exact List.find?_eq_none.mp hfind x hx
    refine ⟨f1, ?_, ?_, ?_⟩
    · rw [e1]
    · rw [e1]
      rw [e2]
    · rw [e1]
      rw [e2]
      show List.countP (fun r => decide (r.username = u))
        (s0.targets ++
          [({ id := r1, username := u, dossier_id := f1,
              created_at := t1', last_updated_at := t1 } : TargetRow)]) = 1
      rw [List.countP_append, hcount0]
      simp

/-- C1 witnessed: registering `" @Alice "` twice on the empty store returns
`"D1"` both times and leaves exactly one `alice` row. -/
theorem C1_witness :
    ∃ d,
      (targetsPOST ⟨[], []⟩ ⟨[], []⟩ (.fieldStr " @Alice ") "D1" 1 5 7
        false).1 = .ok d ∧
      (targetsPOST
        (targetsPOST ⟨[], []⟩ ⟨[], []⟩ (.fieldStr " @Alice ") "D1" 1 5 7
          false).2
        (targetsPOST ⟨[], []⟩ ⟨[], []⟩ (.fieldStr " @Alice ") "D1" 1 5 7
          false).2
        (.fieldStr " @Alice ") "D2" 2 6 8 false).1 = .ok d ∧
      countUsername
        (targetsPOST
          (targetsPOST ⟨[], []⟩ ⟨[], []⟩ (.fieldStr " @Alice ") "D1" 1 5 7
            false).2
          (targetsPOST ⟨[], []⟩ ⟨[], []⟩ (.fieldStr " @Alice ") "D1" 1 5 7
            false).2
          (.fieldStr " @Alice ") "D2" 2 6 8 false).2
        (normalizeUsername " @Alice ") = 1 :=
  C1_registration_idempotent ⟨[], []⟩ " @Alice " "D1" "D2" 1 2 5 7 6 8
    (by decide) (by decide) (by decide)
